import Mathlib

/-
  Verification development for the Cargo-SQL-Format repository
  (src/src/main.rs). The INSERT-formatting pipeline
  (format_sql_inserts / format_insert_statement, together with the
  panic barrier format_with_error_handling and the write decision in
  format_file) is embedded as executable Lean definitions operating on
  List Char / String, translated directly from the Rust source.
  The regex
    (?is)(INSERT\s+INTO\s+\w+(?:\.\w+)?\s*\([^)]+\))\s*VALUES\s*\n?\s*\(([^;]+)(?:;|$)
  is embedded as a deterministic matcher: every quantifier in the
  pattern is effectively possessive (each greedy class is disjoint from
  the character that follows it), so leftmost-first matching coincides
  with the straightforward maximal-munch scan implemented below.
-/

namespace SqlFmt

/-- Single-quote character, built by code point to keep SQL text free of
quote characters in this file. -/
def sqChar : Char := Char.ofNat 39

/-- Double-quote character. -/
def dqChar : Char := Char.ofNat 34

/-- Backtick character. -/
def btChar : Char := Char.ofNat 96

/-- One-character string holding a single quote. -/
def sqS : String := String.mk [sqChar]

/-- One-character string holding a double quote. -/
def dqS : String := String.mk [dqChar]

/-- Whitespace as matched by the regex class backslash-s and by Rust
str::trim, restricted to the ASCII range (all inputs in this
development are ASCII): space, tab, newline, vertical tab, form feed,
carriage return. -/
def isWsChar (c : Char) : Bool :=
  c = ' ' || c = '\t' || c = '\n' || c = '\r' || c = Char.ofNat 11 || c = Char.ofNat 12

/-- Word character for the regex class backslash-w (ASCII fragment):
letters, digits, underscore. -/
def isWordChar (c : Char) : Bool :=
  c.isAlpha || c.isDigit || c = '_'

/-- Length of the leading whitespace run (regex backslash-s star). -/
def wsCount (s : List Char) : Nat := (s.takeWhile isWsChar).length

/-- Length of the leading word-character run (regex backslash-w plus). -/
def wordCount (s : List Char) : Nat := (s.takeWhile isWordChar).length

/-- Length of the leading run of characters other than a closing paren. -/
def nonParenCount (s : List Char) : Nat :=
  (s.takeWhile (fun c => !(c = ')'))).length

/-- Length of the leading run of characters other than a semicolon. -/
def nonSemiCount (s : List Char) : Nat :=
  (s.takeWhile (fun c => !(c = ';'))).length

/-- Case-insensitive test that a list starts with a given pattern
(the regex is compiled with the i flag). -/
def ciStarts : List Char → List Char → Bool
  | _, [] => true
  | [], _ :: _ => false
  | c :: cs, p :: ps => (c.toLower = p.toLower) && ciStarts cs ps

/-- Case-insensitive full equality of two character lists. -/
def ciEqL (a b : List Char) : Bool :=
  a.length = b.length && ciStarts a b

/-- Test that a list starts with a pattern (case-sensitive). -/
def startsWithL : List Char → List Char → Bool
  | _, [] => true
  | [], _ :: _ => false
  | c :: cs, p :: ps => (c = p) && startsWithL cs ps

/-- Substring containment test, used for the Rust
values_section.contains of the two-character pattern close-paren comma. -/
def containsSub : List Char → List Char → Bool
  | [], pat => pat.isEmpty
  | c :: rest, pat => startsWithL (c :: rest) pat || containsSub rest pat

/-- Rust str::trim on a character list. -/
def trimChars (l : List Char) : List Char :=
  ((l.dropWhile isWsChar).reverse.dropWhile isWsChar).reverse

/-- Length of an optional leading sign, for the Rust numeric parsers. -/
def signLen (s : List Char) : Nat :=
  match s.head? with
  | some c => if c = '+' || c = '-' then 1 else 0
  | none => 0

/-- Length of the leading ASCII digit run. -/
def digitCount (s : List Char) : Nat := (s.takeWhile Char.isDigit).length

/-- Decimal value of a digit list. -/
def digitsToNat (s : List Char) : Nat :=
  s.foldl (fun n c => n * 10 + (c.toNat - 48)) 0

/-- Exponent part of the Rust f64 grammar: empty, or e or E followed by
an optional sign and one or more digits, consuming the whole rest. -/
def expFullOk (s : List Char) : Bool :=
  match s with
  | [] => true
  | c :: r =>
    (c = 'e' || c = 'E') &&
    (let sl := signLen r
     let d := digitCount (r.drop sl)
     0 < d && (r.drop (sl + d)).isEmpty)

/-- Number production of the Rust f64 from_str grammar:
digits, optional dot, optional digits, optional exponent; or a dot,
digits, optional exponent. Must consume the whole input. -/
def numberOk (s : List Char) : Bool :=
  let d1 := digitCount s
  if 0 < d1 then
    let r1 := s.drop d1
    let r2 := if r1.head? = some '.' then r1.tail else r1
    let r3 := r2.drop (digitCount r2)
    expFullOk r3
  else
    match s with
    | '.' :: r =>
      let d := digitCount r
      0 < d && expFullOk (r.drop d)
    | _ => false

/-- Rust value.parse::<f64>().is_ok(): optional sign, then inf,
infinity or nan (case-insensitive) or a number. -/
def parsesAsF64 (v : List Char) : Bool :=
  let body := v.drop (signLen v)
  ciEqL body ("inf".toList) || ciEqL body ("infinity".toList) ||
  ciEqL body ("nan".toList) || numberOk body

/-- Rust value.parse::<i64>().is_ok(): optional sign, one or more
digits and nothing else, with the value inside the i64 range. -/
def parsesAsI64 (v : List Char) : Bool :=
  let sl := signLen v
  let body := v.drop sl
  let d := digitCount body
  0 < d && body.length = d &&
  (let n := digitsToNat body
   if v.head? = some '-' then n ≤ 2 ^ 63 else n ≤ 2 ^ 63 - 1)

/-- State of the per-row value-splitting loop of
format_insert_statement (main.rs lines 263 to 314), with the Rust
variable names: values accumulated so far, the value being built,
the single-quote string flag, the nested paren depth (in_function
is never negative in the source, so Nat), and the escape flag. -/
structure SplitState where
  values : List (List Char)
  current_value : List Char
  in_quote : Bool
  in_function : Nat
  escaped : Bool
deriving Repr, DecidableEq

/-- Initial state of the value-splitting loop. -/
def splitInit : SplitState := ⟨[], [], false, 0, false⟩

/-- One step of the value-splitting loop: the match statement of
main.rs lines 270 to 309, arm for arm. Only the single quote toggles
in_quote; parens adjust in_function outside quotes; a comma separates
exactly when not in a quote and not inside parens; every other
character (including double quote and backtick) is pushed verbatim. -/
def splitStep (st : SplitState) (c : Char) : SplitState :=
  if c = '\\' then
    { st with current_value := st.current_value ++ [c], escaped := true }
  else if c = sqChar then
    { st with current_value := st.current_value ++ [c],
              in_quote := if st.escaped then st.in_quote else !st.in_quote,
              escaped := false }
  else if c = '(' then
    { st with current_value := st.current_value ++ [c],
              in_function := if st.in_quote then st.in_function else st.in_function + 1,
              escaped := false }
  else if c = ')' then
    { st with current_value := st.current_value ++ [c],
              in_function := if !st.in_quote && 0 < st.in_function
                             then st.in_function - 1 else st.in_function,
              escaped := false }
  else if c = ',' then
    if st.in_quote || 0 < st.in_function then
      { st with current_value := st.current_value ++ [c], escaped := false }
    else
      { st with values := st.values ++ [trimChars st.current_value],
                current_value := [], escaped := false }
  else
    { st with current_value := st.current_value ++ [c], escaped := false }

/-- Split one row text into its column values: fold the step over the
characters, then push the trailing value if non-empty
(main.rs lines 269 to 314). -/
def splitRow (row : List Char) : List (List Char) :=
  let fin := row.foldl splitStep splitInit
  if fin.current_value = [] then fin.values
  else fin.values ++ [trimChars fin.current_value]

/-- String-level wrapper of splitRow. -/
def splitRowStr (row : String) : List String :=
  (splitRow row.toList).map String.mk

/-- Length of a match of the row-separator regex (close paren,
whitespace, comma, whitespace, open paren) at the head of the list,
none if it does not match here. -/
def rowSepLen (s : List Char) : Option Nat :=
  match s with
  | ')' :: rest =>
    let w1 := wsCount rest
    match rest.drop w1 with
    | ',' :: rest2 =>
      let w2 := wsCount rest2
      match rest2.drop w2 with
      | '(' :: _ => some (3 + w1 + w2)
      | _ => none
    | _ => none
  | _ => none

/-- Regex split of the rows text on the row separator, leftmost
non-overlapping matches, keeping empty pieces, as Rust Regex::split
does. Fuel is one more than the list length; every step consumes at
least one character. -/
def splitRowsAux : Nat → List Char → List Char → List (List Char)
  | 0, acc, s => [acc ++ s]
  | _ + 1, acc, [] => [acc]
  | fuel + 1, acc, c :: rest =>
    match rowSepLen (c :: rest) with
    | some k => acc :: splitRowsAux fuel [] ((c :: rest).drop k)
    | none => splitRowsAux fuel (acc ++ [c]) rest

/-- Split the rows text on the row-separator pattern. -/
def splitRowsOnSep (s : List Char) : List (List Char) :=
  splitRowsAux (s.length + 1) [] s

/-- Row cleanup of main.rs lines 247 to 255: trim, then strip one
trailing close paren if present, then one leading open paren. -/
def cleanupRow (r : List Char) : List Char :=
  let t := trimChars r
  let t2 := if t.getLast? = some ')' then t.dropLast else t
  if t2.head? = some '(' then t2.tail else t2

/-- Maximum row length: values_per_row.iter().map(len).max().unwrap_or(0)
(main.rs line 321). -/
def column_count (rows : List (List (List Char))) : Nat :=
  rows.foldl (fun m r => Nat.max m r.length) 0

/-- Per-column maximum width over the rows that have that index
(main.rs lines 324 to 332). -/
def column_widths (rows : List (List (List Char))) : List Nat :=
  (List.range (column_count rows)).map fun i =>
    rows.foldl (fun w r =>
      match r[i]? with
      | some v => Nat.max w v.length
      | none => w) 0

/-- The right-alignment test of main.rs lines 348 to 351: POINT(
values, f64-parsable values not beginning with a single quote,
i64-parsable values, and the strings 0 and 1. -/
def is_right_aligned (v : List Char) : Bool :=
  startsWithL v ("POINT(".toList) ||
  (parsesAsF64 v && !(startsWithL v [sqChar])) ||
  parsesAsI64 v ||
  v = ("0".toList) || v = ("1".toList)

/-- Rust format width padding: pad with spaces to the target width
(never truncates), on the right for left-justification and on the left
for right-justification. -/
def padTo (v : List Char) (w : Nat) (alignRight : Bool) : List Char :=
  let pad := List.replicate (w - v.length) ' '
  if alignRight then pad ++ v else v ++ pad

/-- Render one row (main.rs lines 339 to 359): open paren, the values
joined by comma-space, each padded to its column width, right-aligned
exactly when is_right_aligned holds, then close paren and comma. -/
def format_row (widths : List Nat) (row : List (List Char)) : List Char :=
  [ '(' ] ++
  List.intercalate (", ".toList)
    (row.enum.map fun p => padTo p.2 (widths.getD p.1 0) (is_right_aligned p.2)) ++
  (String.toList "),")

/-- The body of format_insert_statement (main.rs lines 225 to 378):
wrap the values section in parens (both sides when it contains a
close-paren-comma pair, else only on the left), split into rows, clean
each row, split rows into values, compute widths, render rows joined by
newlines under the header and a VALUES line, and replace a trailing
comma by a semicolon. -/
def format_insert_statement (header vs : List Char) : List Char :=
  let rows_text :=
    if containsSub vs ([ ')' , ',' ]) then [ '(' ] ++ vs ++ [ ')' ]
    else [ '(' ] ++ vs
  let rows := (splitRowsOnSep rows_text).map cleanupRow
  let values_per_row := rows.map splitRow
  let widths := column_widths values_per_row
  let formatted_rows := values_per_row.map (format_row widths)
  let res := header ++ ("\nVALUES\n".toList) ++ List.intercalate [ '\n' ] formatted_rows
  if res.getLast? = some ',' then res.dropLast ++ [ ';' ] else res

/-- Match the INSERT regex at the head of the given suffix. Returns the
length of capture group 1 (the header, which starts at the match
start), the offset and length of capture group 2 (the values section),
and the total match length (including the optional final semicolon).
Each component of the pattern is matched by maximal munch, which
coincides with the regex engine here because every greedy class in the
pattern excludes the character required next. -/
def matchInsertAt (s : List Char) : Option (Nat × Nat × Nat × Nat) := do
  guard (ciStarts s ("INSERT".toList))
  let w1 := wsCount (s.drop 6)
  guard (0 < w1)
  let p2 := 6 + w1
  guard (ciStarts (s.drop p2) ("INTO".toList))
  let p3 := p2 + 4
  let w2 := wsCount (s.drop p3)
  guard (0 < w2)
  let p4 := p3 + w2
  let wd := wordCount (s.drop p4)
  guard (0 < wd)
  let p5 := p4 + wd
  let p6 :=
    if (s.drop p5).head? = some '.' && 0 < wordCount (s.drop (p5 + 1))
    then p5 + 1 + wordCount (s.drop (p5 + 1))
    else p5
  let p7 := p6 + wsCount (s.drop p6)
  guard ((s.drop p7).head? = some '(')
  let p8 := p7 + 1
  let inner := nonParenCount (s.drop p8)
  guard (0 < inner)
  let p9 := p8 + inner
  guard ((s.drop p9).head? = some ')')
  let g1Len := p9 + 1
  let p10 := g1Len + wsCount (s.drop g1Len)
  guard (ciStarts (s.drop p10) ("VALUES".toList))
  let p11 := p10 + 6
  let p12 := p11 + wsCount (s.drop p11)
  guard ((s.drop p12).head? = some '(')
  let g2Start := p12 + 1
  let g2Len := nonSemiCount (s.drop g2Start)
  guard (0 < g2Len)
  let pEnd := g2Start + g2Len
  let total := if (s.drop pEnd).head? = some ';' then pEnd + 1 else pEnd
  return (g1Len, g2Start, g2Len, total)

/-- Leftmost match of the INSERT regex with start at or after the given
index: try each start position in increasing order. Returns the
absolute start and the four components of matchInsertAt. -/
def findFromAux (s : List Char) : Nat → Nat → Option (Nat × Nat × Nat × Nat × Nat)
  | 0, _ => none
  | fuel + 1, i =>
    if s.length < i then none
    else
      match matchInsertAt (s.drop i) with
      | some (g1, g2s, g2l, tot) => some (i, g1, g2s, g2l, tot)
      | none => findFromAux s fuel (i + 1)

/-- Replace the byte range a to b of a list by a replacement, as Rust
String::replace_range does on in-range indices. -/
def listReplaceRange (l : List Char) (a b : Nat) (r : List Char) : List Char :=
  l.take a ++ r ++ l.drop b

/-- The captures_iter loop of format_sql_inserts (main.rs lines 195 to
222): walk the matches of the original text front to back, formatting
each and splicing it into the result at the match range shifted by the
cumulative offset. The offset update is the usize subtraction
formatted_len minus match_len, which panics (checked arithmetic) when
the replacement is shorter than the match; the panic, like an
out-of-range replace_range, is modelled as none. -/
def insertsLoop (sql : List Char) : Nat → Nat → List Char → Nat → Option (List Char)
  | 0, _, res, _ => some res
  | fuel + 1, searchPos, res, off =>
    match findFromAux sql (sql.length + 1) searchPos with
    | none => some res
    | some (st, g1Len, g2Start, g2Len, tot) =>
      let header := (sql.drop st).take g1Len
      let vs := (sql.drop (st + g2Start)).take g2Len
      let fmtd := format_insert_statement header vs
      if fmtd.length < tot then none
      else if res.length < st + tot + off then none
      else
        insertsLoop sql fuel (st + tot)
          (listReplaceRange res (st + off) (st + tot + off) fmtd)
          (off + (fmtd.length - tot))

/-- format_sql_inserts of main.rs lines 183 to 223. Returns none when
the Rust function panics (offset underflow), the case caught by the
panic barrier upstream; otherwise the rewritten document. -/
def format_sql_inserts (sql : String) : Option String :=
  (insertsLoop sql.toList (sql.toList.length + 1) 0 sql.toList 0).map String.mk

/-- format_with_error_handling of main.rs lines 171 to 180: run one
statement-kind formatter under catch_unwind; on a panic (none) the
content for that pass is returned unchanged. -/
def format_with_error_handling (f : String → Option String) (content : String) : String :=
  match f content with
  | some r => r
  | none => content

/-- The INSERT pass of format_file as the caller sees it: the INSERT
formatter behind the panic barrier. -/
def insertsPass (s : String) : String :=
  format_with_error_handling format_sql_inserts s

/-- The write decision of format_file (main.rs lines 159 to 166),
parameterized by the composed formatting pipeline: some new content
when the pipeline changed the text (a write happens), none when it is
unchanged (no write, the file bytes are untouched). -/
def format_file_write (pl : String → String) (content : String) : Option String :=
  if pl content ≠ content then some (pl content) else none

/-! Concrete inputs and the outputs the embedded pipeline produces on
them. SQL quote characters are spliced in through sqS and dqS. -/

/-- Ragged-row input, scenario 3 of the specification. -/
def c1Input : String := "INSERT INTO t (a,b) VALUES (1,2),(3,4,5);"

/-- What the code produces on the ragged-row input: the clause is
re-laid out (and the last row even gains a spurious close paren). -/
def c1Output : String := "INSERT INTO t (a,b)\nVALUES\n(1, 2),\n(3, 4, 5));"

/-- Input whose VALUES fragment ends inside an open string literal,
scenario 5 of the specification wrapped in a full INSERT statement. -/
def c2Input : String := "INSERT INTO t (a) VALUES (" ++ sqS ++ "abc, 1);"

/-- What the code produces on the unterminated-string input: the
clause is re-laid out, the open-quote text kept as one value. -/
def c2Output : String := "INSERT INTO t (a)\nVALUES\n(" ++ sqS ++ "abc, 1);"

/-- Input with a function-call value in a column whose other row holds
a longer function call, so that padding becomes observable. -/
def c3Input : String := "INSERT INTO t (a,b) VALUES (NOW(), 1),(LONGERFN(), 22);"

/-- What the code produces: NOW() is left-justified and padded with
five spaces to the column width 10 set by LONGERFN(). -/
def c3Output : String :=
  "INSERT INTO t (a,b)\nVALUES\n(NOW()     ,   1),\n(LONGERFN(), 22));"

/-- Input with POINT function-call values of different widths, to make
the special-cased right alignment of POINT( values observable. -/
def c3PointInput : String :=
  "INSERT INTO t (a,b) VALUES (POINT(1,2), 5),(POINT(10,20), 6);"

/-- What the code produces: POINT(1,2) is right-aligned, padded on the
left with two spaces to the column width 12 set by POINT(10,20). -/
def c3PointOutput : String :=
  "INSERT INTO t (a,b)\nVALUES\n(  POINT(1,2),  5),\n(POINT(10,20), 6));"

/-- Batch fragment ending in a trailing comma rather than a semicolon. -/
def c4Input : String := "INSERT INTO t (a) VALUES (1),"

/-- What the code produces: the trailing comma has become a semicolon
(and the row gained a spurious close paren). -/
def c4Output : String := "INSERT INTO t (a)\nVALUES\n(1));"

/-- A statement whose formatted form is shorter than the matched text
(surplus interior whitespace), so the usize offset update underflows
and format_sql_inserts panics. -/
def c5PanicInput : String := "INSERT INTO p (x)      VALUES      (7);"

/-- Row text of scenario 2: a comma inside a single-quoted string. -/
def c6Row : String := sqS ++ "a,b" ++ sqS ++ ", 1"

/-- Document with a shrinking first INSERT followed by a second INSERT
that the claim says must still be formatted correctly. -/
def c7Input : String :=
  "INSERT INTO t (a)     VALUES     (1);INSERT INTO u (b) VALUES (2,33);"

/-- The second statement of c7Input on its own. -/
def c7Second : String := "INSERT INTO u (b) VALUES (2,33);"

/-- What the code produces for the second statement when it is
processed at all. -/
def c7SecondOut : String := "INSERT INTO u (b)\nVALUES\n(2, 33);"

/-- Well-formed two-row insert, scenario 1 of the specification. -/
def c8Input : String :=
  "INSERT INTO t (a,b) VALUES (1," ++ sqS ++ "x" ++ sqS ++ "),(22," ++
    sqS ++ "yy" ++ sqS ++ ");"

/-- Result of one application of the formatter to c8Input: note the
extra close paren after the last value. -/
def c8Once : String :=
  "INSERT INTO t (a,b)\nVALUES\n( 1, " ++ sqS ++ "x" ++ sqS ++ "  ),\n(22, " ++
    sqS ++ "yy" ++ sqS ++ "));"

/-- Result of a second application: yet another close paren appears and
the second column is re-padded, so the formatter is not idempotent. -/
def c8Twice : String :=
  "INSERT INTO t (a,b)\nVALUES\n( 1, " ++ sqS ++ "x" ++ sqS ++ "   ),\n(22, " ++
    sqS ++ "yy" ++ sqS ++ ")));"

/-- Row text with a comma inside a double-quoted span. -/
def c9Row : String := dqS ++ "a,b" ++ dqS ++ ", 1"

/-! Claim theorems. -/

/-- C1, counterexample. The claim states that a VALUES clause with
ragged rows is left byte-identical. On the ragged input of scenario 3
the code instead rewrites the clause, so the output differs from the
input. -/
theorem c1_ragged_not_unchanged :
    format_sql_inserts c1Input = some c1Output ∧ c1Output ≠ c1Input :=
  ⟨rfl, by decide⟩

/-- C1, amended. A ragged VALUES clause is not left unchanged: the
formatter reformats it like any other clause, computing each column
width as the maximum over the rows that have that column index (the
rows of scenario 3 yield widths 1, 1, 2), and re-renders the rows. -/
theorem c1_ragged_aligned :
    ((splitRowsOnSep (String.toList "(1,2),(3,4,5))")).map
        (fun r => splitRow (cleanupRow r)))
      = [[String.toList "1", String.toList "2"],
         [String.toList "3", String.toList "4", String.toList "5)"]] ∧
    column_widths
        [[String.toList "1", String.toList "2"],
         [String.toList "3", String.toList "4", String.toList "5)"]] = [1, 1, 2] ∧
    format_sql_inserts c1Input = some c1Output :=
  ⟨rfl, rfl, rfl⟩

/-- C2, counterexample. The claim states that a fragment ending with an
open string literal is abandoned and returned byte-identical. The code
has no unterminated-construct detection: on scenario 5 it reformats the
fragment, so the output differs from the input. -/
theorem c2_unterminated_reformatted :
    format_sql_inserts c2Input = some c2Output ∧ c2Output ≠ c2Input :=
  ⟨rfl, by decide⟩

/-- C2, amended. An unterminated string does not abort formatting: the
clause is re-laid out anyway, the entire open-quote text surviving as
one single value of the only row. -/
theorem c2_unterminated_still_formatted :
    format_sql_inserts c2Input = some c2Output ∧
    splitRowStr (sqS ++ "abc, 1") = [sqS ++ "abc, 1"] :=
  ⟨rfl, rfl⟩

/-- C3, counterexample. The claim states that a function-call value
such as NOW() is emitted with no padding, exactly as captured. In the
output for c3Input the emitted field for NOW() is the value followed by
five spaces (padded to the column width 10 set by LONGERFN()), as the
substring test on the rendered text shows. -/
theorem c3_function_value_padded :
    format_sql_inserts c3Input = some c3Output ∧
    containsSub (String.toList c3Output) (String.toList "(NOW()     ,") = true :=
  ⟨rfl, rfl⟩

/-- C3, amended. A function-call value is not emitted unpadded: it is
padded to its column width like every other value. A value beginning
with POINT( is special-cased into the right-aligned branch of the
alignment test and is padded on the left, while any other
function-call value such as NOW() fails the test and is
left-justified, padded on the right; numeric values such as 1 are
right-aligned. Both cases are exhibited through the full pipeline. -/
theorem c3_function_padding_policy :
    is_right_aligned (String.toList "POINT(1,2)") = true ∧
    is_right_aligned (String.toList "NOW()") = false ∧
    is_right_aligned (String.toList "1") = true ∧
    padTo (String.toList "POINT(1,2)") 12 true = String.toList "  POINT(1,2)" ∧
    padTo (String.toList "NOW()") 10 false = String.toList "NOW()     " ∧
    format_sql_inserts c3PointInput = some c3PointOutput ∧
    format_sql_inserts c3Input = some c3Output :=
  ⟨rfl, rfl, rfl, rfl, rfl, rfl, rfl⟩

/-- C4, counterexample. The claim states that a clause fragment ending
in a trailing comma keeps that separator and is never terminated with a
semicolon. On c4Input, which ends in a comma, the code emits a
semicolon-terminated clause. -/
theorem c4_trailing_comma_forced_semicolon :
    format_sql_inserts c4Input = some c4Output ∧
    (String.toList c4Input).getLast? = some ',' ∧
    c4Output ≠ c4Input :=
  ⟨rfl, rfl, by decide⟩

/-- C4, amended. The trailing separator is normalized, not preserved:
after the rows are joined the assembled result ends in a comma, which
the final fixup replaces by a semicolon, so a trailing-comma batch
fragment is emitted ending in a semicolon. -/
theorem c4_terminator_normalized :
    format_sql_inserts c4Input = some c4Output ∧
    (String.toList c4Output).getLast? = some ';' :=
  ⟨rfl, rfl⟩

/-- C5. A panic inside one statement-kind formatter (modelled as the
formatter returning none) is contained by format_with_error_handling:
the content for that formatting pass is returned unchanged, so the
caller always obtains an output string. -/
theorem c5_panic_contained (f : String → Option String) (content : String)
    (h : f content = none) :
    format_with_error_handling f content = content := by
  simp [format_with_error_handling, h]

/-- C5, witness. The INSERT formatter really does panic on
c5PanicInput (the formatted statement is shorter than the match, so the
usize offset update underflows), and the barrier returns the content
unchanged. -/
theorem c5_panic_contained_witness :
    format_sql_inserts c5PanicInput = none ∧
    format_with_error_handling format_sql_inserts c5PanicInput = c5PanicInput :=
  ⟨rfl, c5_panic_contained format_sql_inserts c5PanicInput rfl⟩

/-- C6. A comma encountered while inside a string literal (in_quote)
or inside a nested parenthesized sub-expression (in_function positive)
is never treated as a column separator: the list of completed values is
unchanged and the comma is appended to the value being built. On the
row of scenario 2 this yields exactly two columns. -/
theorem c6_comma_not_separator (s : SplitState)
    (h : s.in_quote = true ∨ 0 < s.in_function) :
    (splitStep s ',').values = s.values ∧
    (splitStep s ',').current_value = s.current_value ++ [ ',' ] ∧
    splitRowStr c6Row = [sqS ++ "a,b" ++ sqS, "1"] := by
  have hb : (s.in_quote || decide (0 < s.in_function)) = true := by
    rcases h with h | h
    · simp [h]
    · simp [h]
  refine ⟨?_, ?_, rfl⟩ <;> simp [splitStep, sqChar, hb]

/-- C6, witness. The theorem applied to the concrete in-string state. -/
theorem c6_comma_not_separator_witness :
    ((⟨[], [], true, 0, false⟩ : SplitState).in_quote = true ∨
      0 < (⟨[], [], true, 0, false⟩ : SplitState).in_function) ∧
    ((splitStep ⟨[], [], true, 0, false⟩ ',').values = [] ∧
     (splitStep ⟨[], [], true, 0, false⟩ ',').current_value = [] ++ [ ',' ] ∧
     splitRowStr c6Row = [sqS ++ "a,b" ++ sqS, "1"]) :=
  ⟨Or.inl rfl, c6_comma_not_separator ⟨[], [], true, 0, false⟩ (Or.inl rfl)⟩

/-- C7. The claim states that later statements are spliced at correct
byte ranges regardless of length changes in earlier replacements. The
matches are in fact processed front to back with a cumulative usize
offset, and when the first replacement is shorter than its match the
offset update underflows and the whole pass panics: on c7Input the pass
aborts (none), the barrier returns the document unchanged, and the
second statement, which on its own would be rewritten, is left
unformatted. -/
theorem c7_shrinking_replacement_aborts_pass :
    format_sql_inserts c7Input = none ∧
    insertsPass c7Input = c7Input ∧
    format_sql_inserts c7Second = some c7SecondOut ∧
    c7SecondOut ≠ c7Second :=
  ⟨rfl, rfl, rfl, by decide⟩

/-- C8. The claim states that formatting is idempotent on well-formed
inputs. On the well-formed two-row insert of scenario 1 a first
application already appends a spurious close paren to the last value
(the wrap of the values section adds a paren that the cleanup strips
only once), and a second application appends yet another and re-pads
the column, so applying the formatter twice differs from applying it
once. -/
theorem c8_not_idempotent :
    format_sql_inserts c8Input = some c8Once ∧
    format_sql_inserts c8Once = some c8Twice ∧
    c8Twice ≠ c8Once :=
  ⟨rfl, rfl, by decide⟩

/-- C9, counterexample. The claim states that an unescaped double quote
or backtick opens a string when none is open. Stepping the splitter
from its initial state over a double quote leaves the in-string flag
false, and consequently a comma inside a double-quoted span does
separate columns: the row made of a double-quoted a,b then a comma and
1 splits into three values, not two. -/
theorem c9_double_quote_not_delimiter :
    (splitStep splitInit dqChar).in_quote = false ∧
    splitRowStr c9Row = [dqS ++ "a", "b" ++ dqS, "1"] :=
  ⟨rfl, rfl⟩

/-- C9, amended. Only the single quote toggles the in-string flag (and
only when the previous character did not set the escape flag); the
double quote and the backtick leave it untouched in every state. There
is no delimiter recording and no mixed-quote handling. -/
theorem c9_only_single_quote_toggles (s : SplitState) :
    (splitStep s dqChar).in_quote = s.in_quote ∧
    (splitStep s btChar).in_quote = s.in_quote ∧
    (splitStep s sqChar).in_quote =
      (if s.escaped then s.in_quote else !s.in_quote) :=
  ⟨rfl, rfl, rfl⟩

/-- C10. The write decision of format_file is guarded by an equality
comparison: whenever the formatting pipeline leaves the content equal
to the original, no write is issued and the file bytes are untouched. -/
theorem c10_no_write_when_unchanged (pl : String → String) (content : String)
    (h : pl content = content) :
    format_file_write pl content = none := by
  simp [format_file_write, h]

/-- C10, witness. The INSERT pass leaves a document with no INSERT
statement unchanged, and then no write happens. -/
theorem c10_no_write_when_unchanged_witness :
    insertsPass "no sql here" = "no sql here" ∧
    format_file_write insertsPass "no sql here" = none :=
  ⟨rfl, c10_no_write_when_unchanged insertsPass "no sql here" rfl⟩

end SqlFmt
